import Mathlib

/-!
Shallow embedding of the credential-vending handlers of
amazon-ecs-local-container-endpoints.

The Go source consists of two files:
* `handlers` (src/unnamed/part_000): `CredentialService` with
  `getRoleCredentials` (route `/role/<name>`) and
  `GetTemporaryCredentialHandler` (route `/creds`), plus the constant
  `temporaryCredentialsDuration = 3600`.
* `main.go`: process startup, including listen-port selection from the
  `PORT` environment variable.

Modelling choices:
* Go `*string` / `*int64` pointers (as used by the AWS SDK input/output
  structs) are `Option String` / `Option Int`; `aws.String` is `some`,
  `aws.StringValue` is `Option.getD ""`.
* The AWS SDK clients (`iamiface.IAMAPI`, `stsiface.STSAPI`) are a record
  of pure functions returning `Except GoError _`, one per operation the
  handlers use.  A Go `error` is `GoError`, with the repository's
  `HttpError` type as one constructor and arbitrary (SDK) errors as the
  other.
* Both handler functions also return the list of SDK calls they issued,
  in order, so that claims about what is (or is not) sent to the identity
  provider are statable.  The first component of the pair is exactly the
  Go return value.
* `time.Time` values carried in SDK responses are modelled as UTC
  calendar instants (`GoTime`); `Format(time.RFC3339)` on such an instant
  prints `YYYY-MM-DDTHH:MM:SSZ`.
* Go's `regexp.MustCompile("/role/([\\w+=,.@-]+)").FindStringSubmatch`
  performs a leftmost substring search; it is embedded as a structural
  scan over the character list of the path.
-/

/-- Character class `[\w+=,.@-]` of the Go regular expression
`/role/([\w+=,.@-]+)`; Go `\w` is ASCII `[0-9A-Za-z_]`. -/
def isRoleNameChar (c : Char) : Bool :=
  c.isAlphanum || c = '_' || c = '+' || c = '=' || c = ',' || c = '.'
    || c = '@' || c = '-'

/-- Greedy run of role-name characters: the longest prefix of the list
drawn from `[\w+=,.@-]`, as matched by the `+` quantifier. -/
def takeClass : List Char → List Char
  | [] => []
  | c :: rest => if isRoleNameChar c then c :: takeClass rest else []

/-- Attempt to match the regular expression `/role/([\w+=,.@-]+)` at the
head of the list: the literal `/role/` followed by at least one
role-name character.  Returns the captured group on success. -/
def matchRoleAt : List Char → Option (List Char)
  | '/' :: 'r' :: 'o' :: 'l' :: 'e' :: '/' :: c :: rest =>
      if isRoleNameChar c then some (c :: takeClass rest) else none
  | _ => none

/-- Leftmost match of `/role/([\w+=,.@-]+)` in the list: try each start
position from the left, as Go's `FindStringSubmatch` does. -/
def findRoleSubmatch : List Char → Option (List Char)
  | [] => none
  | c :: rest =>
    match matchRoleAt (c :: rest) with
    | some cap => some cap
    | none => findRoleSubmatch rest

/-- Role-name extraction of `getRoleCredentials` (part_000 lines 71-81):
`regexp.MustCompile("/role/([\\w+=,.@-]+)").FindStringSubmatch(urlPath)`.
`none` corresponds to `len(urlParts) < 2` (no match); `some name` is the
captured group `urlParts[1]`. -/
def extractRoleName (urlPath : String) : Option String :=
  (findRoleSubmatch urlPath.toList).map (fun cs => String.mk cs)

/-- `aws.StringValue`: dereference a Go `*string`, `nil` becoming `""`. -/
def StringValue (s : Option String) : String := s.getD ""

/-- A UTC instant as carried in SDK `Credentials.Expiration` fields
(`*time.Time`; the handlers dereference it unconditionally). -/
structure GoTime where
  year : Nat
  month : Nat
  day : Nat
  hour : Nat
  minute : Nat
  second : Nat
deriving Repr, DecidableEq

/-- Zero-pad a numeral to two digits, as Go layout components `01`,
`02`, `15`, `04`, `05` do. -/
def pad2 (n : Nat) : String :=
  if n < 10 then "0" ++ toString n else toString n

/-- Zero-pad a year to four digits, as the Go layout component `2006`
does for years below 10000. -/
def pad4 (n : Nat) : String :=
  if n < 10 then "000" ++ toString n
  else if n < 100 then "00" ++ toString n
  else if n < 1000 then "0" ++ toString n
  else toString n

/-- Go `t.Format(time.RFC3339)` for a UTC instant: layout
`2006-01-02T15:04:05Z07:00`, the zero UTC offset printing as `Z`. -/
def formatRFC3339 (t : GoTime) : String :=
  pad4 t.year ++ "-" ++ pad2 t.month ++ "-" ++ pad2 t.day ++ "T"
    ++ pad2 t.hour ++ ":" ++ pad2 t.minute ++ ":" ++ pad2 t.second ++ "Z"

/-- The repository's `HttpError` type: an HTTP status code with an
underlying error, modelled by its message. -/
structure HttpError where
  Code : Nat
  Err : String
deriving Repr, DecidableEq

/-- A Go `error` value as the handlers see it: either the repository's
`HttpError` (carrying an explicit status code) or any other error
(e.g. one returned by an SDK client), carrying no status code. -/
inductive GoError where
  | http (e : HttpError)
  | plain (msg : String)
deriving Repr, DecidableEq

/-- `iam.GetRoleInput`. -/
structure GetRoleInput where
  RoleName : Option String
deriving Repr, DecidableEq

/-- `iam.Role` (the fields the handlers read). -/
structure IamRole where
  Arn : Option String
deriving Repr, DecidableEq

/-- `iam.GetRoleOutput` (the handlers dereference `output.Role`). -/
structure GetRoleOutput where
  Role : IamRole
deriving Repr, DecidableEq

/-- `sts.Credentials` (the fields the handlers read). -/
structure StsCredentials where
  AccessKeyId : Option String
  SecretAccessKey : Option String
  SessionToken : Option String
  Expiration : GoTime
deriving Repr, DecidableEq

/-- `sts.AssumeRoleInput` (the fields the handlers set). -/
structure AssumeRoleInput where
  RoleArn : Option String
  DurationSeconds : Option Int
  RoleSessionName : Option String
deriving Repr, DecidableEq

/-- `sts.AssumeRoleOutput`. -/
structure AssumeRoleOutput where
  Credentials : StsCredentials
deriving Repr, DecidableEq

/-- `sts.GetSessionTokenInput` (the fields the handlers set). -/
structure GetSessionTokenInput where
  DurationSeconds : Option Int
deriving Repr, DecidableEq

/-- `sts.GetSessionTokenOutput`. -/
structure GetSessionTokenOutput where
  Credentials : StsCredentials
deriving Repr, DecidableEq

/-- One call issued to an identity-provider client, with the input the
handler passed to it. -/
inductive ProviderCall where
  | getRole (input : GetRoleInput)
  | assumeRole (input : AssumeRoleInput)
  | getSessionToken (input : GetSessionTokenInput)
deriving Repr, DecidableEq

/-- `CredentialService`: the two client handles, as the record of the
operations the handlers invoke on them. -/
structure CredentialService where
  iamGetRole : GetRoleInput → Except GoError GetRoleOutput
  stsAssumeRole : AssumeRoleInput → Except GoError AssumeRoleOutput
  stsGetSessionToken : GetSessionTokenInput → Except GoError GetSessionTokenOutput

/-- `temporaryCredentialsDuration` (part_000 line 32). -/
def temporaryCredentialsDuration : Int := 3600

/-- `credentialResponse`: the JSON response shape. -/
structure credentialResponse where
  AccessKeyId : String
  SecretAccessKey : String
  RoleArn : String
  Token : String
  Expiration : String
deriving Repr, DecidableEq

/-- `getRoleCredentials` (part_000 lines 69-108).  The first component
is the Go return value (`*credentialResponse, error` as an `Except`);
the second records, in order, every call issued to the SDK clients. -/
def getRoleCredentials (service : CredentialService) (urlPath : String) :
    Except GoError credentialResponse × List ProviderCall :=
  match extractRoleName urlPath with
  | none =>
      (Except.error (GoError.http
        { Code := 400
          Err := "Invalid URL path " ++ urlPath
            ++ "; expected \x27/role/<IAM Role Name>\x27" }), [])
  | some roleName =>
      let getRoleInput : GetRoleInput := { RoleName := some roleName }
      match service.iamGetRole getRoleInput with
      | Except.error e => (Except.error e, [ProviderCall.getRole getRoleInput])
      | Except.ok output =>
          let assumeInput : AssumeRoleInput :=
            { RoleArn := output.Role.Arn
              DurationSeconds := some temporaryCredentialsDuration
              RoleSessionName := some ("ecs-local-" ++ roleName) }
          match service.stsAssumeRole assumeInput with
          | Except.error e =>
              (Except.error e,
               [ProviderCall.getRole getRoleInput,
                ProviderCall.assumeRole assumeInput])
          | Except.ok creds =>
              (Except.ok
                { AccessKeyId := StringValue creds.Credentials.AccessKeyId
                  SecretAccessKey := StringValue creds.Credentials.SecretAccessKey
                  RoleArn := StringValue output.Role.Arn
                  Token := StringValue creds.Credentials.SessionToken
                  Expiration := formatRFC3339 creds.Credentials.Expiration },
               [ProviderCall.getRole getRoleInput,
                ProviderCall.assumeRole assumeInput])

/-- Body of the closure returned by `GetTemporaryCredentialHandler`
(part_000 lines 111-133), minus the HTTP plumbing: requests a session
token and normalizes it into a `credentialResponse`.  Components as in
`getRoleCredentials`. -/
def GetTemporaryCredentialHandler (service : CredentialService) :
    Except GoError credentialResponse × List ProviderCall :=
  let input : GetSessionTokenInput :=
    { DurationSeconds := some temporaryCredentialsDuration }
  match service.stsGetSessionToken input with
  | Except.error e => (Except.error e, [ProviderCall.getSessionToken input])
  | Except.ok creds =>
      (Except.ok
        { AccessKeyId := StringValue creds.Credentials.AccessKeyId
          SecretAccessKey := StringValue creds.Credentials.SecretAccessKey
          RoleArn := ""
          Token := StringValue creds.Credentials.SessionToken
          Expiration := formatRFC3339 creds.Credentials.Expiration },
       [ProviderCall.getSessionToken input])

/-- Listen-port selection of `main` (main.go lines 21-24): `port := "80"`
overridden by `os.Getenv("PORT")` when that value is non-empty.  The
environment is a total map from variable names to values, unset
variables reading as `""` exactly as `os.Getenv` reports them. -/
def selectPort (env : String → String) : String :=
  if env "PORT" ≠ "" then env "PORT" else "80"

/-- ARN of the role used in the concrete scenarios. -/
def appRoleArn : String := "arn:aws:iam::111111111111:role/app-role"

/-- Concrete identity provider for the scenarios: role `app-role` exists
with `appRoleArn`; assuming that ARN yields the scenario credentials
expiring 2024-01-01T01:00:00Z; a session token for the caller expires
2024-01-01T02:00:00Z. -/
def testService : CredentialService where
  iamGetRole := fun input =>
    if input.RoleName = some "app-role" then
      Except.ok { Role := { Arn := some appRoleArn } }
    else
      Except.error (GoError.plain "NoSuchEntity")
  stsAssumeRole := fun input =>
    if input.RoleArn = some appRoleArn then
      Except.ok
        { Credentials :=
            { AccessKeyId := some "AKIA..."
              SecretAccessKey := some "secret"
              SessionToken := some "token123"
              Expiration := { year := 2024, month := 1, day := 1,
                              hour := 1, minute := 0, second := 0 } } }
    else
      Except.error (GoError.plain "AccessDenied")
  stsGetSessionToken := fun _ =>
    Except.ok
      { Credentials :=
          { AccessKeyId := some "ASIASELF"
            SecretAccessKey := some "selfsecret"
            SessionToken := some "selftoken"
            Expiration := { year := 2024, month := 1, day := 1,
                            hour := 2, minute := 0, second := 0 } } }

/-- Concrete identity provider whose role lookup always fails. -/
def lookupFailureService : CredentialService where
  iamGetRole := fun _ => Except.error (GoError.plain "NoSuchEntity: missing-role")
  stsAssumeRole := fun _ => Except.error (GoError.plain "AccessDenied")
  stsGetSessionToken := fun _ => Except.error (GoError.plain "AccessDenied")

example : extractRoleName "/role/app-role" = some "app-role" := by decide
example : extractRoleName "/role/" = none := by decide
example : extractRoleName "/rolename" = none := by decide
example : extractRoleName "/role/bad name" = some "bad" := by decide
example :
    formatRFC3339 ⟨2024, 1, 1, 1, 0, 0⟩ = "2024-01-01T01:00:00Z" := by decide

/-- Auxiliary: string concatenation is associative. -/
theorem string_append_assoc (a b c : String) : a ++ b ++ c = a ++ (b ++ c) := by
  apply String.ext
  simp [String.data_append, List.append_assoc]

/-- Auxiliary: the sequence of SDK calls issued by `getRoleCredentials`
once the role name has been extracted and the role lookup has succeeded:
a `GetRole` for the extracted name followed by an `AssumeRole` for the
looked-up ARN, regardless of how the `AssumeRole` call turns out. -/
theorem getRoleCredentials_calls_eq (service : CredentialService)
    (path roleName : String) (output : GetRoleOutput)
    (hx : extractRoleName path = some roleName)
    (hr : service.iamGetRole { RoleName := some roleName } = Except.ok output) :
    (getRoleCredentials service path).2 =
      [ProviderCall.getRole { RoleName := some roleName },
       ProviderCall.assumeRole
         { RoleArn := output.Role.Arn
           DurationSeconds := some temporaryCredentialsDuration
           RoleSessionName := some ("ecs-local-" ++ roleName) }] := by
  cases hA : service.stsAssumeRole
      { RoleArn := output.Role.Arn
        DurationSeconds := some temporaryCredentialsDuration
        RoleSessionName := some ("ecs-local-" ++ roleName) } with
  | error e => simp [getRoleCredentials, hx, hr, hA]
  | ok creds => simp [getRoleCredentials, hx, hr, hA]

/-- Auxiliary: inversion of a successful `getRoleCredentials` run, given
that extraction and lookup succeeded: the `AssumeRole` call for the
looked-up ARN succeeded and the response is the normalization of its
credentials together with that ARN. -/
theorem getRoleCredentials_ok_elim (service : CredentialService)
    (path roleName : String) (output : GetRoleOutput)
    (resp : credentialResponse)
    (hx : extractRoleName path = some roleName)
    (hr : service.iamGetRole { RoleName := some roleName } = Except.ok output)
    (h1 : (getRoleCredentials service path).1 = Except.ok resp) :
    ∃ creds, service.stsAssumeRole
        { RoleArn := output.Role.Arn
          DurationSeconds := some temporaryCredentialsDuration
          RoleSessionName := some ("ecs-local-" ++ roleName) } = Except.ok creds ∧
      resp = { AccessKeyId := StringValue creds.Credentials.AccessKeyId
               SecretAccessKey := StringValue creds.Credentials.SecretAccessKey
               RoleArn := StringValue output.Role.Arn
               Token := StringValue creds.Credentials.SessionToken
               Expiration := formatRFC3339 creds.Credentials.Expiration } := by
  cases hA : service.stsAssumeRole
      { RoleArn := output.Role.Arn
        DurationSeconds := some temporaryCredentialsDuration
        RoleSessionName := some ("ecs-local-" ++ roleName) } with
  | error e => simp [getRoleCredentials, hx, hr, hA] at h1
  | ok creds =>
      refine ⟨creds, rfl, ?_⟩
      simp [getRoleCredentials, hx, hr, hA] at h1
      exact h1.symm

/-- Auxiliary: inversion of a successful session-token run: the
`GetSessionToken` call succeeded and the response is the normalization
of its credentials with an empty `RoleArn`. -/
theorem getTemporaryCredential_ok_elim (service : CredentialService)
    (resp : credentialResponse)
    (h : (GetTemporaryCredentialHandler service).1 = Except.ok resp) :
    ∃ creds, service.stsGetSessionToken
        { DurationSeconds := some temporaryCredentialsDuration } = Except.ok creds ∧
      resp = { AccessKeyId := StringValue creds.Credentials.AccessKeyId
               SecretAccessKey := StringValue creds.Credentials.SecretAccessKey
               RoleArn := ""
               Token := StringValue creds.Credentials.SessionToken
               Expiration := formatRFC3339 creds.Credentials.Expiration } := by
  cases hS : service.stsGetSessionToken
      { DurationSeconds := some temporaryCredentialsDuration } with
  | error e => simp [GetTemporaryCredentialHandler, hS] at h
  | ok creds =>
      refine ⟨creds, rfl, ?_⟩
      simp [GetTemporaryCredentialHandler, hS] at h
      exact h.symm

/-- C1 counterexample: the path `/role/bad name` is claimed not to match
the pattern and to yield a 400 error, but the Go regular expression is
searched as a substring, so it does match: the role name `bad` is
extracted and the identity provider is consulted; the result carries no
HTTP status 400. -/
theorem rolePath_substring_match_counterexample :
    extractRoleName "/role/bad name" = some "bad" ∧
    (getRoleCredentials testService "/role/bad name").1 =
      Except.error (GoError.plain "NoSuchEntity") := by
  constructor
  · decide
  · rfl

/-- C1 (amended): for every URL path in which the regular expression
`/role/([\w+=,.@-]+)` finds no match anywhere in the path,
`getRoleCredentials` returns an error carrying HTTP status 400 and no
response value, and the error message contains the original offending
path and the expected format. -/
theorem getRoleCredentials_invalid_path (service : CredentialService)
    (path : String) (h : extractRoleName path = none) :
    (getRoleCredentials service path).1 =
      Except.error (GoError.http
        { Code := 400
          Err := "Invalid URL path " ++ path
            ++ "; expected \x27/role/<IAM Role Name>\x27" }) ∧
    (∃ pre post, "Invalid URL path " ++ path
        ++ "; expected \x27/role/<IAM Role Name>\x27" = pre ++ path ++ post) ∧
    (∃ pre post, "Invalid URL path " ++ path
        ++ "; expected \x27/role/<IAM Role Name>\x27"
        = pre ++ "/role/<IAM Role Name>" ++ post) := by
  refine ⟨?_, ⟨"Invalid URL path ",
    "; expected \x27/role/<IAM Role Name>\x27", rfl⟩, ?_⟩
  · unfold getRoleCredentials
    rw [h]
  · refine ⟨"Invalid URL path " ++ path ++ "; expected \x27", "\x27", ?_⟩
    rw [string_append_assoc ("Invalid URL path " ++ path ++ "; expected \x27")]
    rw [string_append_assoc ("Invalid URL path " ++ path)]
    rfl

/-- Witness for C1 at the concrete path `/role/`: extraction fails and
the 400 error is returned. -/
theorem getRoleCredentials_invalid_path_witness :
    extractRoleName "/role/" = none ∧
    (getRoleCredentials testService "/role/").1 =
      Except.error (GoError.http
        { Code := 400
          Err := "Invalid URL path " ++ "/role/"
            ++ "; expected \x27/role/<IAM Role Name>\x27" }) :=
  ⟨by decide,
   (getRoleCredentials_invalid_path testService "/role/" (by decide)).1⟩

/-- C2: with the scenario identity provider (role `app-role` with ARN
`arn:aws:iam::111111111111:role/app-role`, assumption yielding the
scenario credentials expiring 2024-01-01T01:00:00Z),
`getRoleCredentials` on `/role/app-role` returns exactly the expected
response and no error. -/
theorem getRoleCredentials_appRole_scenario :
    (getRoleCredentials testService "/role/app-role").1 =
      Except.ok
        { AccessKeyId := "AKIA..."
          SecretAccessKey := "secret"
          RoleArn := "arn:aws:iam::111111111111:role/app-role"
          Token := "token123"
          Expiration := "2024-01-01T01:00:00Z" } := by
  rfl

/-- C3: whenever a role name is successfully extracted from the path and
the role lookup fails with error `e`, `getRoleCredentials` returns
exactly `e`, unmodified and unwrapped, with no response value (and only
the lookup call was issued). -/
theorem getRoleCredentials_lookup_error_propagated
    (service : CredentialService) (path roleName : String) (e : GoError)
    (hx : extractRoleName path = some roleName)
    (he : service.iamGetRole { RoleName := some roleName } = Except.error e) :
    getRoleCredentials service path =
      (Except.error e, [ProviderCall.getRole { RoleName := some roleName }]) := by
  simp [getRoleCredentials, hx, he]

/-- Witness for C3: `/role/missing-role` under a failing lookup returns
the lookup error itself and no response. -/
theorem getRoleCredentials_lookup_error_witness :
    getRoleCredentials lookupFailureService "/role/missing-role" =
      (Except.error (GoError.plain "NoSuchEntity: missing-role"),
       [ProviderCall.getRole { RoleName := some "missing-role" }]) :=
  getRoleCredentials_lookup_error_propagated lookupFailureService
    "/role/missing-role" "missing-role"
    (GoError.plain "NoSuchEntity: missing-role") (by decide) rfl

/-- C4: whenever the role name is successfully extracted and the lookup
succeeds, the role-assumption request sent to the identity provider
carries a duration of exactly 3600 seconds and the session name
`ecs-local-<roleName>`. -/
theorem getRoleCredentials_assume_request (service : CredentialService)
    (path roleName : String) (output : GetRoleOutput)
    (hx : extractRoleName path = some roleName)
    (hr : service.iamGetRole { RoleName := some roleName } = Except.ok output) :
    temporaryCredentialsDuration = 3600 ∧
    (getRoleCredentials service path).2 =
      [ProviderCall.getRole { RoleName := some roleName },
       ProviderCall.assumeRole
         { RoleArn := output.Role.Arn
           DurationSeconds := some temporaryCredentialsDuration
           RoleSessionName := some ("ecs-local-" ++ roleName) }] :=
  ⟨rfl, getRoleCredentials_calls_eq service path roleName output hx hr⟩

/-- Witness for C4 at the scenario provider and path `/role/app-role`. -/
theorem getRoleCredentials_assume_request_witness :
    temporaryCredentialsDuration = 3600 ∧
    (getRoleCredentials testService "/role/app-role").2 =
      [ProviderCall.getRole { RoleName := some "app-role" },
       ProviderCall.assumeRole
         { RoleArn := some appRoleArn
           DurationSeconds := some temporaryCredentialsDuration
           RoleSessionName := some ("ecs-local-" ++ "app-role") }] :=
  getRoleCredentials_assume_request testService "/role/app-role" "app-role"
    { Role := { Arn := some appRoleArn } } (by decide) rfl

/-- C5: in successful responses, the role path sets `RoleArn` to the
looked-up role's ARN (dereferenced as `aws.StringValue` does), while the
self-session path always produces `RoleArn = ""`. -/
theorem roleArn_role_derived_vs_self
    (service1 service2 : CredentialService) (path roleName : String)
    (output : GetRoleOutput) (resp1 resp2 : credentialResponse)
    (hx : extractRoleName path = some roleName)
    (hr : service1.iamGetRole { RoleName := some roleName } = Except.ok output)
    (h1 : (getRoleCredentials service1 path).1 = Except.ok resp1)
    (h2 : (GetTemporaryCredentialHandler service2).1 = Except.ok resp2) :
    resp1.RoleArn = StringValue output.Role.Arn ∧ resp2.RoleArn = "" := by
  obtain ⟨creds, -, hresp1⟩ :=
    getRoleCredentials_ok_elim service1 path roleName output resp1 hx hr h1
  obtain ⟨sessionCreds, -, hresp2⟩ :=
    getTemporaryCredential_ok_elim service2 resp2 h2
  rw [hresp1, hresp2]
  exact ⟨rfl, rfl⟩

/-- Witness for C5: the scenario provider's two concrete responses. -/
theorem roleArn_role_derived_vs_self_witness :
    ({ AccessKeyId := "AKIA..."
       SecretAccessKey := "secret"
       RoleArn := "arn:aws:iam::111111111111:role/app-role"
       Token := "token123"
       Expiration := "2024-01-01T01:00:00Z" } : credentialResponse).RoleArn =
      StringValue (some appRoleArn) ∧
    ({ AccessKeyId := "ASIASELF"
       SecretAccessKey := "selfsecret"
       RoleArn := ""
       Token := "selftoken"
       Expiration := "2024-01-01T02:00:00Z" } : credentialResponse).RoleArn = "" :=
  roleArn_role_derived_vs_self testService testService "/role/app-role"
    "app-role" { Role := { Arn := some appRoleArn } } _ _
    (by decide) rfl rfl rfl

/-- C6: in every successful response of either path, `Expiration` is the
RFC3339 rendering of the expiry instant carried in the identity
provider's reply to that request, not an instant computed locally. -/
theorem expiration_from_provider
    (service1 service2 : CredentialService) (path roleName : String)
    (output : GetRoleOutput) (creds : AssumeRoleOutput)
    (sessionCreds : GetSessionTokenOutput) (resp1 resp2 : credentialResponse)
    (hx : extractRoleName path = some roleName)
    (hr : service1.iamGetRole { RoleName := some roleName } = Except.ok output)
    (hA : service1.stsAssumeRole
        { RoleArn := output.Role.Arn
          DurationSeconds := some temporaryCredentialsDuration
          RoleSessionName := some ("ecs-local-" ++ roleName) } = Except.ok creds)
    (h1 : (getRoleCredentials service1 path).1 = Except.ok resp1)
    (hS : service2.stsGetSessionToken
        { DurationSeconds := some temporaryCredentialsDuration }
        = Except.ok sessionCreds)
    (h2 : (GetTemporaryCredentialHandler service2).1 = Except.ok resp2) :
    resp1.Expiration = formatRFC3339 creds.Credentials.Expiration ∧
    resp2.Expiration = formatRFC3339 sessionCreds.Credentials.Expiration := by
  obtain ⟨creds2, hA2, hresp1⟩ :=
    getRoleCredentials_ok_elim service1 path roleName output resp1 hx hr h1
  obtain ⟨sessionCreds2, hS2, hresp2⟩ :=
    getTemporaryCredential_ok_elim service2 resp2 h2
  rw [hA] at hA2
  rw [hS] at hS2
  cases Except.ok.inj hA2
  cases Except.ok.inj hS2
  rw [hresp1, hresp2]
  exact ⟨rfl, rfl⟩

/-- Witness for C6: the scenario provider's concrete expiry instants. -/
theorem expiration_from_provider_witness :
    ({ AccessKeyId := "AKIA..."
       SecretAccessKey := "secret"
       RoleArn := "arn:aws:iam::111111111111:role/app-role"
       Token := "token123"
       Expiration := "2024-01-01T01:00:00Z" } : credentialResponse).Expiration =
      formatRFC3339 ⟨2024, 1, 1, 1, 0, 0⟩ ∧
    ({ AccessKeyId := "ASIASELF"
       SecretAccessKey := "selfsecret"
       RoleArn := ""
       Token := "selftoken"
       Expiration := "2024-01-01T02:00:00Z" } : credentialResponse).Expiration =
      formatRFC3339 ⟨2024, 1, 1, 2, 0, 0⟩ :=
  expiration_from_provider testService testService "/role/app-role"
    "app-role" { Role := { Arn := some appRoleArn } }
    { Credentials :=
        { AccessKeyId := some "AKIA..."
          SecretAccessKey := some "secret"
          SessionToken := some "token123"
          Expiration := ⟨2024, 1, 1, 1, 0, 0⟩ } }
    { Credentials :=
        { AccessKeyId := some "ASIASELF"
          SecretAccessKey := some "selfsecret"
          SessionToken := some "selftoken"
          Expiration := ⟨2024, 1, 1, 2, 0, 0⟩ } }
    _ _ (by decide) rfl rfl rfl rfl rfl

/-- C7: the self-session path always issues exactly one provider call, a
`GetSessionToken` with a duration of 3600 seconds and no role lookup;
with the scenario provider (session token expiring 2024-01-01T02:00:00Z)
the response has `RoleArn = ""` and
`Expiration = "2024-01-01T02:00:00Z"`. -/
theorem getTemporaryCredential_spec (service : CredentialService) :
    (GetTemporaryCredentialHandler service).2 =
      [ProviderCall.getSessionToken
        { DurationSeconds := some temporaryCredentialsDuration }] ∧
    temporaryCredentialsDuration = 3600 ∧
    (GetTemporaryCredentialHandler testService).1 =
      Except.ok
        { AccessKeyId := "ASIASELF"
          SecretAccessKey := "selfsecret"
          RoleArn := ""
          Token := "selftoken"
          Expiration := "2024-01-01T02:00:00Z" } := by
  refine ⟨?_, rfl, rfl⟩
  cases hS : service.stsGetSessionToken
      { DurationSeconds := some temporaryCredentialsDuration } with
  | error e => simp [GetTemporaryCredentialHandler, hS]
  | ok creds => simp [GetTemporaryCredentialHandler, hS]

/-- C8: the listen port is the value of the `PORT` environment variable
when that value is non-empty, and `"80"` otherwise. -/
theorem selectPort_spec (env : String → String) :
    (env "PORT" ≠ "" → selectPort env = env "PORT") ∧
    (env "PORT" = "" → selectPort env = "80") := by
  constructor
  · intro h
    simp [selectPort, h]
  · intro h
    simp [selectPort, h]

/-- Witness for C8: an environment with `PORT=8080` and one with `PORT`
unset (read as the empty string). -/
theorem selectPort_spec_witness :
    selectPort (fun name => if name = "PORT" then "8080" else "") = "8080" ∧
    selectPort (fun _ => "") = "80" :=
  ⟨(selectPort_spec (fun name => if name = "PORT" then "8080" else "")).1
      (by decide),
   (selectPort_spec (fun _ => "")).2 rfl⟩

/-- C9: when role-name extraction fails, `getRoleCredentials` returns on
the 400 branch without issuing any identity-provider call. -/
theorem getRoleCredentials_no_calls_on_invalid_path
    (service : CredentialService) (path : String)
    (h : extractRoleName path = none) :
    (getRoleCredentials service path).2 = [] := by
  unfold getRoleCredentials
  rw [h]

/-- Witness for C9 at the concrete path `/creds`. -/
theorem getRoleCredentials_no_calls_witness :
    extractRoleName "/creds" = none ∧
    (getRoleCredentials testService "/creds").2 = [] :=
  ⟨by decide,
   getRoleCredentials_no_calls_on_invalid_path testService "/creds" (by decide)⟩

/-- C10: in every successful run of `getRoleCredentials`, the ARN
returned by the role lookup, the `RoleArn` of the role-assumption
request, and the `RoleArn` of the response all agree: the request
carries the looked-up ARN pointer and the response its dereference. -/
theorem getRoleCredentials_arn_agreement (service : CredentialService)
    (path roleName : String) (output : GetRoleOutput)
    (resp : credentialResponse)
    (hx : extractRoleName path = some roleName)
    (hr : service.iamGetRole { RoleName := some roleName } = Except.ok output)
    (h1 : (getRoleCredentials service path).1 = Except.ok resp) :
    (getRoleCredentials service path).2 =
      [ProviderCall.getRole { RoleName := some roleName },
       ProviderCall.assumeRole
         { RoleArn := output.Role.Arn
           DurationSeconds := some temporaryCredentialsDuration
           RoleSessionName := some ("ecs-local-" ++ roleName) }] ∧
    resp.RoleArn = StringValue output.Role.Arn := by
  obtain ⟨creds, -, hresp⟩ :=
    getRoleCredentials_ok_elim service path roleName output resp hx hr h1
  refine ⟨getRoleCredentials_calls_eq service path roleName output hx hr, ?_⟩
  rw [hresp]

/-- Witness for C10 at the scenario provider and path `/role/app-role`. -/
theorem getRoleCredentials_arn_agreement_witness :
    (getRoleCredentials testService "/role/app-role").2 =
      [ProviderCall.getRole { RoleName := some "app-role" },
       ProviderCall.assumeRole
         { RoleArn := some appRoleArn
           DurationSeconds := some temporaryCredentialsDuration
           RoleSessionName := some ("ecs-local-" ++ "app-role") }] ∧
    ({ AccessKeyId := "AKIA..."
       SecretAccessKey := "secret"
       RoleArn := "arn:aws:iam::111111111111:role/app-role"
       Token := "token123"
       Expiration := "2024-01-01T01:00:00Z" } : credentialResponse).RoleArn =
      StringValue (some appRoleArn) :=
  getRoleCredentials_arn_agreement testService "/role/app-role" "app-role"
    { Role := { Arn := some appRoleArn } } _ (by decide) rfl rfl
